import Mathlib

set_option maxRecDepth 100000

/-!
Verification of the Bedrock client library (vcare_ai) against its
natural-language specification.

The Python sources are shallowly embedded: JSON values become an inductive
type `JVal`, Python dicts become association lists that keep insertion
order, Python floats (which in this code base only ever hold exact decimal
values) become `ℚ`, exceptions become `Except`, and the external
collaborators (the AWS endpoint, the nutrient vector store, the free-text
LLM regex parser and `json.loads`) become oracle parameters.  Metric side
effects (the prometheus counters and gauge of `client.py`) are made
observable as an event list so that claims about counter updates can be
stated exactly.

Rational arithmetic is routed through `Rat.divInt` so that concrete runs
of the embedded programs reduce inside the kernel; the bridge lemmas
`qAdd_eq`, `qMul_eq`, `qSub_eq`, `qDiv_eq` identify these operations with
the ordinary field operations of `ℚ`.
-/

/-! ## Kernel-computable rational arithmetic -/

/-- Addition on `ℚ` via `Rat.divInt` (equal to `+` by `qAdd_eq`). -/
def qAdd (a b : ℚ) : ℚ := Rat.divInt (a.num * b.den + b.num * a.den) (a.den * b.den)

/-- Multiplication on `ℚ` via `Rat.divInt` (equal to `*` by `qMul_eq`). -/
def qMul (a b : ℚ) : ℚ := Rat.divInt (a.num * b.num) (a.den * b.den)

/-- Subtraction on `ℚ` via `Rat.divInt` (equal to `-` by `qSub_eq`). -/
def qSub (a b : ℚ) : ℚ := Rat.divInt (a.num * b.den - b.num * a.den) (a.den * b.den)

/-- Division on `ℚ` via `Rat.divInt` (equal to `/` by `qDiv_eq`). -/
def qDiv (a b : ℚ) : ℚ := Rat.divInt (a.num * b.den) (b.num * a.den)

/-! ## JSON values and Python helpers -/

/-- A JSON-like Python value, as produced by `json.loads` and passed around
`client.py` and `food_analyser.py`.  Dicts keep their insertion order. -/
inductive JVal where
  | null
  | bool (b : Bool)
  | num (q : ℚ)
  | str (s : String)
  | arr (xs : List JVal)
  | obj (kvs : List (String × JVal))

/-- Python truthiness of a loaded JSON value: None, False, 0, empty
strings, lists and dicts are falsy, everything else truthy. -/
def JVal.truthy : JVal → Bool
  | .null => false
  | .bool b => b
  | .num q => decide (q ≠ 0)
  | .str s => !s.isEmpty
  | .arr xs => !xs.isEmpty
  | .obj kvs => !kvs.isEmpty

/-- Dictionary lookup (Python `d.get(k)`) on an ordered association list. -/
def objGet (kvs : List (String × JVal)) (k : String) : Option JVal :=
  (kvs.find? (fun p => p.1 == k)).map (·.2)

/-- Substring test on character lists. -/
def listContainsSub (hay needle : List Char) : Bool :=
  (List.range (hay.length + 1)).any (fun i => needle.isPrefixOf (hay.drop i))

/-- The Python `needle in hay` substring test on strings. -/
def strContainsSub (hay needle : String) : Bool :=
  listContainsSub hay.toList needle.toList

/-- Strip leading and trailing whitespace (Python `str.strip()`). -/
def trimChars (cs : List Char) : List Char :=
  ((cs.dropWhile Char.isWhitespace).reverse.dropWhile Char.isWhitespace).reverse

/-- Python `str.strip()` on strings. -/
def pyStrip (s : String) : String := String.mk (trimChars s.toList)

/-- Python `str.lower()` on strings. -/
def pyLower (s : String) : String := s.toLower

/-- Number of words of `len(text.split())`: the count of maximal
nonwhitespace runs.  The boolean argument records whether the scan is
currently inside a word. -/
def countWords : List Char → Bool → Nat
  | [], _ => 0
  | c :: rest, inWord =>
    if c.isWhitespace then countWords rest false
    else (if inWord then 0 else 1) + countWords rest true

/-- `token_utils.estimate_tokens`: `int(len(text.split()) * 1.3)`.
Python `int` truncates toward zero; on the nonnegative values involved
this is the floor, so the float product is modelled exactly as the
rational `len * 13/10` and the truncation as `Nat` floor division. -/
def estimate_tokens (text : String) : Nat :=
  (countWords text.toList false) * 13 / 10

/-! ## Configuration (`config.py`) -/

/-- The two exception kinds `ModelConfig.__init__` can raise: the plain
Python `ValueError` used for unparseable numeric environment values, and
the repository type `ConfigError` used by `_validate_config`. -/
inductive ConfigException where
  | valueError (msg : String)
  | configError (msg : String)
  deriving Repr, DecidableEq, BEq

/-- The fields of `config.ModelConfig` after successful construction.
The provider is kept as the string value of the `ModelProvider` str-enum
("anthropic", "meta", "mistral"), since `os.getenv` returns a plain
string and all comparisons in the source are string comparisons. -/
structure ModelConfig where
  model_provider : String
  model_id : String
  region : String
  max_tokens : Int
  temperature : ℚ

/-- Digit run to an integer value. -/
def digitsVal (ds : List Char) : Int :=
  ds.foldl (fun acc c => acc * 10 + (c.toNat - 48)) (0 : Int)

/-- Python `int(s)` on a string: optional surrounding whitespace, optional
sign, then one or more decimal digits; anything else raises ValueError. -/
def pyParseInt (s : String) : Option Int :=
  let t := trimChars s.toList
  let core : List Char → Option Int := fun ds =>
    if ds.isEmpty ∨ ¬ ds.all Char.isDigit then none
    else some (digitsVal ds)
  match t with
  | '-' :: rest => (core rest).map (fun n => -n)
  | '+' :: rest => core rest
  | _ => core t

/-- Python `float(s)` restricted to finite decimal literals
`[sign] digits [. digits]` (with at least one digit overall), the only
forms relevant to this configuration surface; the result is the exact
rational value.  Non-finite literals such as nan and inf are outside the
scope of this rational model. -/
def pyParseFloat (s : String) : Option ℚ :=
  let t := trimChars s.toList
  let core : List Char → Option ℚ := fun ds =>
    let intPart := ds.takeWhile (fun c => c ≠ '.')
    let rest := ds.dropWhile (fun c => c ≠ '.')
    if ¬ intPart.all Char.isDigit then none
    else
      match rest with
      | [] => if intPart.isEmpty then none else some ((digitsVal intPart : ℚ))
      | '.' :: frac =>
        if ¬ frac.all Char.isDigit then none
        else if intPart.isEmpty ∧ frac.isEmpty then none
        else some (Rat.divInt (digitsVal (intPart ++ frac)) ((10 : Int) ^ frac.length))
      | _ => none
  match t with
  | '-' :: rest => (core rest).map (fun q => -q)
  | '+' :: rest => core rest
  | _ => core t

/-- `os.getenv` over an explicit environment. -/
def getenv (env : List (String × String)) (k : String) : Option String :=
  (env.find? (fun p => p.1 == k)).map (·.2)

/-- The `MAX_TOKENS` step of `ModelConfig.__init__`:
`int(os.getenv("MAX_TOKENS", 8000))`, raising a plain ValueError with the
message of the source when the string does not parse. -/
def parseMaxTokens (env : List (String × String)) : Except ConfigException Int :=
  match getenv env "MAX_TOKENS" with
  | none => .ok 8000
  | some s =>
    match pyParseInt s with
    | some n => .ok n
    | none => .error (.valueError "MAX_TOKENS must be a valid integer")

/-- The `TEMP` step of `ModelConfig.__init__`:
`float(os.getenv("TEMP", 0))`. -/
def parseTemp (env : List (String × String)) : Except ConfigException ℚ :=
  match getenv env "TEMP" with
  | none => .ok 0
  | some s =>
    match pyParseFloat s with
    | some q => .ok q
    | none => .error (.valueError "TEMPERATURE must be a valid float")

/-- `config.ModelConfig.__init__` together with `_validate_config`,
reading the recognized environment variables with the defaults of the
source and validating eagerly at the end of construction. -/
def mkModelConfig (env : List (String × String)) : Except ConfigException ModelConfig :=
  let provider := (getenv env "MODEL_PROVIDER").getD "meta"
  let model_id := (getenv env "MODEL_ID").getD "meta.llama3-2-90b-instruct-v1:0"
  let region := (getenv env "AWS_REGION").getD "us-east-1"
  match parseMaxTokens env with
  | .error e => .error e
  | .ok mt =>
    match parseTemp env with
    | .error e => .error e
    | .ok temp =>
      if mt ≤ 0 then
        .error (.configError "MAX_TOKENS must be greater than 0")
      else if temp < 0 ∨ temp > 1 then
        .error (.configError "TEMPERATURE must be between 0 and 1")
      else
        .ok ⟨provider, model_id, region, mt, temp⟩

/-! ## The Bedrock client (`client.py`) -/

/-- The `BedrockClientError` hierarchy of `client.py`.  All four kinds are
subclasses of `BedrockClientError` and are therefore caught by the
`except BedrockClientError` clause of `invoke`. -/
inductive BedrockError where
  | requestError (msg : String)
  | responseError (msg : String)
  | rateLimitError (msg : String)
  | clientError (msg : String)
  deriving Repr, DecidableEq, BEq

/-- `ResponseCache` of `client.py`: an insertion-ordered dict with a
maximum size. -/
structure ResponseCache where
  cache : List (String × JVal)
  max_size : Nat

/-- `ResponseCache.get`: plain dict lookup (the hit and miss counters are
emitted by `invoke`, where the lookup result is inspected). -/
def ResponseCache.get (c : ResponseCache) (k : String) : Option JVal :=
  objGet c.cache k

/-- `ResponseCache.set`: when the dict is at capacity the first-inserted
entry is popped (`cache.pop(next(iter(cache)))`), then the key is written,
overwriting in place when present. -/
def ResponseCache.set (c : ResponseCache) (k : String) (v : JVal) : ResponseCache :=
  let cache1 := if c.max_size ≤ c.cache.length then c.cache.tail else c.cache
  let cache2 :=
    if cache1.any (fun p => p.1 == k) then
      cache1.map (fun p => if p.1 == k then (k, v) else p)
    else cache1 ++ [(k, v)]
  ⟨cache2, c.max_size⟩

/-- Decimal rendering of a rational, standing in for the Python f-string
rendering of a float inside `_get_cache_key`.  Only determinism and
injectivity in the temperature matter to the claims. -/
def ratRepr (q : ℚ) : String := toString q.num ++ "/" ++ toString q.den

/-- `BedrockClient._get_cache_key`: the cache fingerprint is computed from
the prompt, model id, temperature and max_tokens only; the md5 digest of
the joined string is modelled as the joined string itself (an injective
stand-in for a collision-free digest).  The `image_url` parameter exists
in the source signature and is ignored, exactly as in the source. -/
def get_cache_key (cfg : ModelConfig) (prompt : String) (image_url : String := "") : String :=
  prompt ++ "|" ++ cfg.model_id ++ "|" ++ ratRepr cfg.temperature ++ "|" ++ toString cfg.max_tokens

/-- `BedrockClient._format_prompt`: builds the provider-specific request
body.  Unknown providers raise `BedrockRequestError`, re-wrapped by the
except clause of the source into the "Failed to format prompt" message. -/
def format_prompt (cfg : ModelConfig) (prompt : String) (image_url : String := "") :
    Except BedrockError JVal :=
  if cfg.model_provider == "anthropic" then
    if strContainsSub cfg.model_id "claude-3" then
      if image_url ≠ "" then
        .ok (.obj [("messages", .arr [.obj [("role", .str "user"),
              ("content", .arr [
                .obj [("type", .str "image"), ("source", .obj [("type", .str "base64"),
                      ("media_type", .str "image/jpeg"), ("data", .str image_url)])],
                .obj [("type", .str "text"), ("text", .str prompt)]])]]),
            ("max_tokens", .num cfg.max_tokens),
            ("temperature", .num cfg.temperature),
            ("anthropic_version", .str "bedrock-2023-05-31")])
      else
        .ok (.obj [("messages", .arr [.obj [("role", .str "user"),
              ("content", .arr [.obj [("type", .str "text"), ("text", .str prompt)]])]]),
            ("max_tokens", .num cfg.max_tokens),
            ("temperature", .num cfg.temperature),
            ("anthropic_version", .str "bedrock-2023-05-31")])
    else
      .ok (.obj [("prompt", .str ("\n\nHuman: " ++ prompt ++ "\n\nAssistant:")),
          ("max_tokens_to_sample", .num cfg.max_tokens),
          ("temperature", .num cfg.temperature),
          ("stop_sequences", .arr [.str "\n\nHuman:"])])
  else if cfg.model_provider == "meta" then
    if strContainsSub (pyLower cfg.model_id) "llama3-2" then
      if image_url ≠ "" then
        .ok (.obj [("messages", .arr [.obj [("role", .str "user"),
              ("content", .arr [
                .obj [("type", .str "image_url"),
                      ("image_url", .obj [("url", .str ("data:image/jpeg;base64," ++ image_url))])],
                .obj [("type", .str "text"), ("text", .str prompt)]])]]),
            ("max_tokens", .num cfg.max_tokens),
            ("temperature", .num cfg.temperature),
            ("top_p", .num (mkRat 9 10))])
      else
        .ok (.obj [("messages", .arr [.obj [("role", .str "user"),
              ("content", .arr [.obj [("type", .str "text"), ("text", .str prompt)]])]]),
            ("max_tokens", .num cfg.max_tokens),
            ("temperature", .num cfg.temperature),
            ("top_p", .num (mkRat 9 10))])
    else
      .ok (.obj [("prompt", .str prompt),
          ("max_gen_len", .num cfg.max_tokens),
          ("temperature", .num cfg.temperature)])
  else if cfg.model_provider == "mistral" then
    .ok (.obj [("prompt", .str prompt),
        ("max_tokens", .num cfg.max_tokens),
        ("temperature", .num cfg.temperature)])
  else
    .error (.requestError ("Failed to format prompt: Unsupported provider: " ++ cfg.model_provider))

/-- The body of an upstream HTTP response: either `json.loads` of the
payload succeeds with a value, or it raises (a generic exception caught by
the outer `except Exception` clause of `invoke`). -/
inductive BodyBytes where
  | malformed (msg : String)
  | json (v : JVal)

/-- Result of one call to the AWS runtime (`client.invoke_model`): a
raised botocore error, any other raised exception, or an HTTP response
with a status code and a body. -/
inductive UpstreamResult where
  | boto3Error (msg : String)
  | pyError (msg : String)
  | http (status : Nat) (body : BodyBytes)

/-- One observable metric event of `client.py`. -/
inductive MEvent where
  | reqCounter (model status : String)
  | cacheHit
  | cacheMiss
  | tokensIn (model : String) (n : Nat)
  | tokensOut (model : String) (n : Nat)
  | responseTime (model : String)
  | activeInc
  | activeDec
  deriving Repr, DecidableEq, BEq

/-- The output-token accounting step of `invoke` (lines 258 to 265 of
`client.py`): the raw text is read with `.get(field, "")` and fed to
`estimate_tokens`; a non-string value there makes `estimate_tokens` raise
an AttributeError, which the generic except clause of `invoke` catches.
For providers other than CLAUDE and LLAMA the whole body is stringified;
only the token count of that string is observable, so the stand-in
rendering returns the empty string there (the event value is not relied
on by any claim). -/
def extract_output_text (cfg : ModelConfig) (rb : JVal) : Except String String :=
  if cfg.model_provider == "anthropic" then
    match rb with
    | .obj kvs =>
      match objGet kvs "completion" with
      | none => .ok ""
      | some (.str s) => .ok s
      | some _ => .error "output text is not a string"
    | _ => .error "response body has no attribute get"
  else if cfg.model_provider == "meta" then
    match rb with
    | .obj kvs =>
      match objGet kvs "generation" with
      | none => .ok ""
      | some (.str s) => .ok s
      | some _ => .error "output text is not a string"
    | _ => .error "response body has no attribute get"
  else
    .ok ""

instance : BEq JVal where
  beq a b :=
    match a, b with
    | .str s, .str t => s == t
    | .null, .null => true
    | _, _ => false

/-- Text concatenation step of the claude-3 branch of `_parse_response`:
`"".join(c.get("text", "") for c in content if c.get("type") == "text")`.
A list element that is not a dict, or a selected text value that is not a
string, raises inside `_parse_response` and is converted to
`BedrockResponseError` by its except clause. -/
def joinTextBlocks : List JVal → Except BedrockError String
  | [] => .ok ""
  | .obj kvs :: rest =>
    match joinTextBlocks rest with
    | .error e => .error e
    | .ok tail =>
      if objGet kvs "type" == some (.str "text") then
        match (objGet kvs "text").getD (.str "") with
        | .str s => .ok (s ++ tail)
        | _ => .error (.responseError "Failed to parse response: join expects str")
      else .ok tail
  | _ :: _ => .error (.responseError "Failed to parse response: content item has no attribute get")

/-- `BedrockClient._parse_response`: normalizes the provider response into
a dict with a "text" field.  Structural violations raise
`BedrockResponseError`; a missing or non-list claude-3 content degrades to
empty text as in the source.  The `BEq JVal` instance above is only used
for the `c.get("type") == "text"` comparison, where the compared value is
a string or differs. -/
def parse_response (cfg : ModelConfig) (rb : JVal) : Except BedrockError JVal :=
  if cfg.model_provider == "anthropic" then
    if strContainsSub cfg.model_id "claude-3" then
      match rb with
      | .obj kvs =>
        match (objGet kvs "content").getD (.arr []) with
        | .arr items =>
          match joinTextBlocks items with
          | .error e => .error e
          | .ok text => .ok (.obj [("text", .str text)])
        | _ => .ok (.obj [("text", .str "")])
      | _ => .error (.responseError "Failed to parse response: response has no attribute get")
    else
      match rb with
      | .obj kvs => .ok (.obj [("text", (objGet kvs "completion").getD (.str ""))])
      | _ => .error (.responseError "Failed to parse response: response has no attribute get")
  else if cfg.model_provider == "meta" then
    match rb with
    | .obj kvs => .ok (.obj [("text", (objGet kvs "generation").getD (.str ""))])
    | _ => .error (.responseError "Failed to parse response: response has no attribute get")
  else if cfg.model_provider == "mistral" then
    match rb with
    | .obj kvs =>
      match (objGet kvs "outputs").getD (.arr [.obj []]) with
      | .arr (first :: _) =>
        match first with
        | .obj fkvs => .ok (.obj [("text", (objGet fkvs "text").getD (.str ""))])
        | _ => .error (.responseError "Failed to parse response: output item has no attribute get")
      | .arr [] => .error (.responseError "Failed to parse response: list index out of range")
      | _ => .error (.responseError "Failed to parse response: outputs is not subscriptable")
    | _ => .error (.responseError "Failed to parse response: response has no attribute get")
  else
    .ok rb

/-- Exceptions as seen by the three except clauses of `invoke`. -/
inductive PyExc where
  | client (e : BedrockError)
  | boto3 (msg : String)
  | other (msg : String)

/-- The try block of `BedrockClient.invoke` (cache check, request
formatting, upstream call, status classification, throttling check, body
decode, token accounting, response parsing, cache store).  Returns the
outcome, the cache afterwards, the metric events in order, and how many
upstream calls were made. -/
def invokeTry (cfg : ModelConfig) (oracle : JVal → UpstreamResult) (cache0 : ResponseCache)
    (prompt : String) (use_cache : Bool) (image_url : String) :
    Except PyExc JVal × ResponseCache × List MEvent × Nat :=
  let key := get_cache_key cfg prompt
  let hitEvents : List MEvent :=
    if use_cache then
      match cache0.get key with
      | some _ => [.cacheHit]
      | none => [.cacheMiss]
    else []
  let cached : Option JVal :=
    if use_cache then
      match cache0.get key with
      | some v => if v.truthy then some v else none
      | none => none
    else none
  match cached with
  | some v => (.ok v, cache0, hitEvents, 0)
  | none =>
    match format_prompt cfg prompt image_url with
    | .error e => (.error (.client e), cache0, hitEvents, 0)
    | .ok body =>
      let ev1 := hitEvents ++ [.tokensIn cfg.model_id (estimate_tokens prompt)]
      match oracle body with
      | .boto3Error m => (.error (.boto3 m), cache0, ev1, 1)
      | .pyError m => (.error (.other m), cache0, ev1, 1)
      | .http status bodyb =>
        let ev2 := ev1 ++ [.responseTime cfg.model_id]
        let statusStr := if status == 200 then "success" else "error"
        let ev3 := ev2 ++ [.reqCounter cfg.model_id statusStr]
        if status == 429 then
          (.error (.client (.rateLimitError "Rate limit exceeded")), cache0, ev3, 1)
        else
          match bodyb with
          | .malformed m => (.error (.other m), cache0, ev3, 1)
          | .json rb =>
            match extract_output_text cfg rb with
            | .error m => (.error (.other m), cache0, ev3, 1)
            | .ok outText =>
              let ev4 := ev3 ++ [.tokensOut cfg.model_id (estimate_tokens outText)]
              match parse_response cfg rb with
              | .error e => (.error (.client e), cache0, ev4, 1)
              | .ok parsed =>
                if use_cache then
                  (.ok parsed, cache0.set key parsed, ev4, 1)
                else
                  (.ok parsed, cache0, ev4, 1)

/-- The full observable outcome of one `invoke` call. -/
structure InvokeOut where
  result : Except BedrockError JVal
  cache : ResponseCache
  events : List MEvent
  upstreamCalls : Nat

/-- `BedrockClient.invoke`: wraps the try block with the gauge
increment/decrement and the three except clauses, each of which records
one request-counter event with status "error" before re-raising or
wrapping. -/
def invoke (cfg : ModelConfig) (oracle : JVal → UpstreamResult) (cache0 : ResponseCache)
    (prompt : String) (use_cache : Bool := true) (image_url : String := "") : InvokeOut :=
  match invokeTry cfg oracle cache0 prompt use_cache image_url with
  | (.ok v, c, ev, n) =>
    ⟨.ok v, c, .activeInc :: (ev ++ [.activeDec]), n⟩
  | (.error (.client e), c, ev, n) =>
    ⟨.error e, c, .activeInc :: (ev ++ [.reqCounter cfg.model_id "error", .activeDec]), n⟩
  | (.error (.boto3 m), c, ev, n) =>
    ⟨.error (.clientError ("AWS service error: " ++ m)), c,
      .activeInc :: (ev ++ [.reqCounter cfg.model_id "error", .activeDec]), n⟩
  | (.error (.other m), c, ev, n) =>
    ⟨.error (.clientError ("Failed to invoke model: " ++ m)), c,
      .activeInc :: (ev ++ [.reqCounter cfg.model_id "error", .activeDec]), n⟩

/-- Recognizer for a request-counter event with a given model and status. -/
def isReqCounter (model status : String) : MEvent → Bool
  | .reqCounter m s => m == model && s == status
  | _ => false

/-- Recognizer for any request-counter event. -/
def isReqCounterAny : MEvent → Bool
  | .reqCounter _ _ => true
  | _ => false

/-- Number of request-counter events carrying a given model and status. -/
def countReq (model status : String) (evs : List MEvent) : Nat :=
  (evs.filter (isReqCounter model status)).length

/-- Number of request-counter events of any model and status. -/
def countReqAll (evs : List MEvent) : Nat :=
  (evs.filter isReqCounterAny).length

/-! ## Concrete fixtures used by the witness theorems -/

/-- A concrete LLAMA-family configuration. -/
def wCfg : ModelConfig := ⟨"meta", "m", "r", 10, 0⟩

/-- An upstream endpoint that always answers 200 with a generation. -/
def wOracle : JVal → UpstreamResult :=
  fun _ => .http 200 (.json (.obj [("generation", .str "hi")]))

/-- An upstream endpoint that always answers 429. -/
def wOracle429 : JVal → UpstreamResult := fun _ => .http 429 (.json (.obj []))

/-- An empty response cache of capacity 200. -/
def wCache : ResponseCache := ⟨[], 200⟩

/-- A cache already holding a truthy response under the fingerprint of
prompt "p" for `wCfg`. -/
def wCacheHit : ResponseCache :=
  ⟨[(get_cache_key wCfg "p", .obj [("text", .str "hi")])], 200⟩

/-! ## Cooking factors (`utils/cooking_factor.py`) -/

/-- The boiling row of `COOKING_FACTORS`. -/
def COOKING_FACTORS_boiling : List (String × ℚ) :=
  [("protein", mkRat 85 100), ("fat", mkRat 95 100), ("carbs", mkRat 90 100),
   ("fiber", mkRat 80 100), ("calories", mkRat 92 100)]

/-- The frying row of `COOKING_FACTORS`. -/
def COOKING_FACTORS_frying : List (String × ℚ) :=
  [("protein", mkRat 90 100), ("fat", mkRat 120 100), ("carbs", mkRat 95 100),
   ("fiber", mkRat 85 100), ("calories", mkRat 115 100)]

/-- The baking row of `COOKING_FACTORS`. -/
def COOKING_FACTORS_baking : List (String × ℚ) :=
  [("protein", mkRat 92 100), ("fat", mkRat 98 100), ("carbs", mkRat 94 100),
   ("fiber", mkRat 88 100), ("calories", mkRat 96 100)]

/-- The grilling row of `COOKING_FACTORS`. -/
def COOKING_FACTORS_grilling : List (String × ℚ) :=
  [("protein", mkRat 88 100), ("fat", mkRat 90 100), ("carbs", mkRat 92 100),
   ("fiber", mkRat 82 100), ("calories", mkRat 93 100)]

/-- The steaming row of `COOKING_FACTORS`. -/
def COOKING_FACTORS_steaming : List (String × ℚ) :=
  [("protein", mkRat 95 100), ("fat", mkRat 99 100), ("carbs", mkRat 97 100),
   ("fiber", mkRat 92 100), ("calories", mkRat 97 100)]

/-- `cooking_factor.get_cooking_factor`: substring matching on the
lower-cased dish name, in the priority order of the source, defaulting to
boiling. -/
def get_cooking_factor (dish_name : String) : List (String × ℚ) :=
  let d := pyLower dish_name
  if strContainsSub d "fry" || strContainsSub d "crispy" then COOKING_FACTORS_frying
  else if strContainsSub d "bake" || strContainsSub d "roast" then COOKING_FACTORS_baking
  else if strContainsSub d "grill" then COOKING_FACTORS_grilling
  else if strContainsSub d "steam" then COOKING_FACTORS_steaming
  else COOKING_FACTORS_boiling

/-! ## Rounding and formatting helpers used by the food analyser -/

/-- Round to the nearest integer, ties to even: the rounding of Python
`round` and of f-string float formatting at the exact midpoint. -/
def roundHalfEven (q : ℚ) : ℤ :=
  let f := ⌊q⌋
  let r := qSub q (f : ℚ)
  if r < mkRat 1 2 then f
  else if mkRat 1 2 < r then f + 1
  else if f % 2 = 0 then f else f + 1

/-- Python `round(v, 2)` on the exact rational model of the float. -/
def round2 (q : ℚ) : ℚ := qDiv ((roundHalfEven (qMul q 100) : ℤ) : ℚ) 100

/-- Absolute value, computable by inspection of the numerator. -/
def qAbs (q : ℚ) : ℚ := if q.num < 0 then -q else q

/-- Python f-string formatting with one decimal place, for nonnegative
values (the source only formats `abs(diff)`). -/
def fmt1 (q : ℚ) : String :=
  let n := roundHalfEven (qMul q 10)
  toString (n / 10) ++ "." ++ toString (n % 10)

/-! ## The food analyser (`usecases/food_analyser.py`) -/

/-- One record returned by the nutrient store
(`VectorDBUtils.get_nutrient_data` / `search_similar`): a food name and a
nutrient dict.  An empty dict models a missing/empty `nutrients` field,
which is falsy in the guards of the source. -/
structure DBRecord where
  food_name : String
  nutrients : List (String × ℚ)

/-- The external collaborators of `FoodAnalyser`, modelled as oracles:
the two nutrient-store lookups, the Bedrock client invocation
(prompt, use_cache, image_url to outcome), the regex-based
`IngredientFallback.parse_llm_response`, and `json.loads`. -/
structure AnalyserEnv where
  get_nutrient_data : String → Option DBRecord
  search_similar : String → List DBRecord
  clientInvoke : String → Bool → JVal → Except String JVal
  parse_llm_response : String → List (String × ℚ)
  jsonLoads : String → Except String JVal

/-- The all-zeros five-field profile installed when the LLM fallback
fails. -/
def zero_profile : List (String × ℚ) :=
  [("carbohydrates", 0), ("proteins", 0), ("fats", 0), ("fibre", 0), ("calories", 0)]

/-- The required-nutrients completion loop of tier 3: any of the five
fields missing from the parsed dict is appended with value 0.0, in the
order of the source list. -/
def fill_required (d : List (String × ℚ)) : List (String × ℚ) :=
  ["carbohydrates", "proteins", "fats", "fibre", "calories"].foldl
    (fun acc n => if acc.any (fun p => p.1 == n) then acc else acc ++ [(n, 0)]) d

/-- The tier-3 prompt of `get_nutrients_with_fallback` (the f-string of
the source; indentation reproduced approximately, which is irrelevant
since the prompt only serves as the key the client oracle is consulted
with). -/
def fallback_prompt (ingredient : String) : String :=
  "Provide macronutrients per 100g for " ++ ingredient ++ " as JSON:\n" ++
  "            \x7b\n" ++
  "                \"carbohydrates\": float,\n" ++
  "                \"proteins\": float,\n" ++
  "                \"fats\": float,\n" ++
  "                \"fibre\": float,\n" ++
  "                \"calories\": float\n" ++
  "            \x7d"

/-- Observable outcome of `FoodAnalyser.get_nutrients_with_fallback`:
the returned nutrient dict, the per-run LLM cache afterwards, and flags
recording whether the tier-2 similarity search and the tier-3 LLM
invocation were reached on this call. -/
structure ResolveOut where
  nutrients : List (String × ℚ)
  cacheAfter : List (String × List (String × ℚ))
  tier2Called : Bool
  llmCalled : Bool

/-- Tier 3 of `FoodAnalyser.get_nutrients_with_fallback` (the LLM
fallback block): skip the invocation when the ingredient is already in
the per-run cache; otherwise invoke the client with caching enabled,
parse the text field with the regex parser and complete missing fields
with zeros; any failure (invocation error, missing or non-string text)
degrades to the all-zeros profile.  Either way the ingredient is recorded
in the per-run cache. -/
def resolve_tier3 (env : AnalyserEnv)
    (fcache : List (String × List (String × ℚ))) (ingredient : String) : ResolveOut :=
  match fcache.find? (fun p => p.1 == ingredient) with
  | some p => ⟨p.2, fcache, true, false⟩
  | none =>
    match env.clientInvoke (fallback_prompt ingredient) true (.str "") with
    | .ok resp =>
      let dataOpt : Option (List (String × ℚ)) :=
        match resp with
        | .obj kvs =>
          match objGet kvs "text" with
          | some (.str t) => some (fill_required (env.parse_llm_response t))
          | _ => none
        | _ => none
      match dataOpt with
      | some d => ⟨d, fcache ++ [(ingredient, d)], true, true⟩
      | none => ⟨zero_profile, fcache ++ [(ingredient, zero_profile)], true, true⟩
    | .error _ => ⟨zero_profile, fcache ++ [(ingredient, zero_profile)], true, true⟩

/-- Tier 2 of `get_nutrients_with_fallback`: top-1 similarity search with
short-circuit to tier 3 on a miss or an empty profile. -/
def resolve_tier2 (env : AnalyserEnv)
    (fcache : List (String × List (String × ℚ))) (ingredient : String) : ResolveOut :=
  match env.search_similar ingredient with
  | r :: _ =>
    if !r.nutrients.isEmpty then ⟨r.nutrients, fcache, true, false⟩
    else resolve_tier3 env fcache ingredient
  | [] => resolve_tier3 env fcache ingredient

/-- `FoodAnalyser.get_nutrients_with_fallback`: exact store lookup, then
top-1 similarity search, then LLM estimation with per-run caching; each
tier short-circuits the later ones on success.  The source writes the
three tiers as one function body; they are factored here by tier with
identical control flow. -/
def get_nutrients_with_fallback (env : AnalyserEnv)
    (fcache : List (String × List (String × ℚ))) (ingredient : String) : ResolveOut :=
  match env.get_nutrient_data ingredient with
  | some r =>
    if !r.nutrients.isEmpty then ⟨r.nutrients, fcache, false, false⟩
    else resolve_tier2 env fcache ingredient
  | none => resolve_tier2 env fcache ingredient

/-- A nutrient dict as a JSON value. -/
def profJ (prof : List (String × ℚ)) : JVal :=
  .obj (prof.map (fun p => (p.1, .num p.2)))

/-- The running-totals update of `calculate_total_nutrients` for one
ingredient: `totals[nutrient] += value * factors.get(nutrient, 1.0) *
(qty / 100)` over the items of the per-100g dict.  A key absent from
`totals` raises KeyError mid-loop (partial updates are kept, as in
Python); the missing key is returned. -/
def addItems (factors : List (String × ℚ)) (qty : ℚ) :
    List (String × ℚ) → List (String × ℚ) → List (String × ℚ) × Option String
  | totals, [] => (totals, none)
  | totals, (k, v) :: rest =>
    if totals.any (fun p => p.1 == k) then
      let factor := ((factors.find? (fun p => p.1 == k)).map (·.2)).getD 1
      let adj := qMul (qMul v factor) (qDiv qty 100)
      addItems factors qty
        (totals.map (fun p => if p.1 == k then (p.1, qAdd p.2 adj) else p)) rest
    else (totals, some k)

/-- The per-ingredient `adjusted_nutrients` dict of the reporting entry. -/
def adjustedProfile (factors : List (String × ℚ)) (qty : ℚ)
    (prof : List (String × ℚ)) : List (String × JVal) :=
  prof.map (fun p =>
    (p.1, .num (qMul (qMul p.2 (((factors.find? (fun q => q.1 == p.1)).map (·.2)).getD 1))
      (qDiv qty 100))))

/-- The initial totals dict of `calculate_total_nutrients`. -/
def initTotals : List (String × ℚ) :=
  [("carbohydrates", 0), ("proteins", 0), ("fats", 0), ("fibre", 0), ("calories", 0)]

/-- Outcome of `calculate_total_nutrients`: the rounded totals, the
reporting entries, and the per-run LLM cache afterwards. -/
structure CalcOut where
  totals : List (String × ℚ)
  ingredient_details : List JVal
  fcache : List (String × List (String × ℚ))

/-- The ingredient loop of `calculate_total_nutrients`.  A KeyError
during the totals update is caught per ingredient and turned into an
error entry, never aborting the loop. -/
def calcLoop (env : AnalyserEnv) (factors : List (String × ℚ)) :
    List (String × ℚ) → List (String × ℚ) → List JVal →
    List (String × List (String × ℚ)) → CalcOut
  | [], totals, details, fcache => ⟨totals, details, fcache⟩
  | (name, qty) :: rest, totals, details, fcache =>
    let r := get_nutrients_with_fallback env fcache name
    match addItems factors qty totals r.nutrients with
    | (totals2, none) =>
      let detail : JVal := .obj [("name", .str name), ("quantity", .num qty),
        ("nutrients", profJ r.nutrients),
        ("adjusted_nutrients", .obj (adjustedProfile factors qty r.nutrients))]
      calcLoop env factors rest totals2 (details ++ [detail]) r.cacheAfter
    | (totals2, some k) =>
      let detail : JVal := .obj [("name", .str name), ("quantity", .num qty),
        ("error", .str k)]
      calcLoop env factors rest totals2 (details ++ [detail]) r.cacheAfter

/-- `FoodAnalyser.calculate_total_nutrients`: runs the ingredient loop
from the zero totals and rounds every total to two decimals at the end. -/
def calculate_total_nutrients (env : AnalyserEnv) (ingredients : List (String × ℚ))
    (factors : List (String × ℚ)) (fcache : List (String × List (String × ℚ))) : CalcOut :=
  let out := calcLoop env factors ingredients initTotals [] fcache
  ⟨out.totals.map (fun p => (p.1, round2 p.2)), out.ingredient_details, out.fcache⟩

/-- Comma join of the advice fragments. -/
def joinComma : List String → String
  | [] => ""
  | [x] => x
  | x :: xs => x ++ ", " ++ joinComma xs

/-- `FoodAnalyser.generate_recommendation`: one advice fragment per
nonzero deviation, or the fixed targets-met message when every deviation
is zero. -/
def generate_recommendation (deviation : List (String × ℚ)) : String :=
  let advice := deviation.foldl (fun acc p =>
    if 0 < p.2 then acc ++ ["reduce " ++ p.1 ++ " by " ++ fmt1 (qAbs p.2) ++ "g"]
    else if p.2 < 0 then acc ++ ["increase " ++ p.1 ++ " by " ++ fmt1 (qAbs p.2) ++ "g"]
    else acc) []
  if advice.isEmpty then "Nutrition targets met"
  else "Consider to " ++ joinComma advice

/-- The fixed vision prompt of `get_dish_details_from_image` (whitespace
reproduced approximately; the text only serves as the oracle key). -/
def vision_prompt : String :=
  "Analyze this food image and return JSON with:\n" ++
  "        - dish_name: Most probable name\n" ++
  "        - ingredients: List of \x7bname, quantity_in_grams\x7d\n" ++
  "        - confidence: Estimation confidence (0-100)\n" ++
  "        \n" ++
  "        Example: \x7b ... \x7d"

/-- The validated outcome of `get_dish_details_from_image`. -/
structure DishData where
  dish_name : String
  ingredients : List (String × ℚ)
  confidence : ℚ

/-- One entry of the vision ingredient list:
`(name.lower().strip(), float(quantity))`.  A missing or non-string name,
or a quantity that `float()` rejects, raises and fails the whole vision
step. -/
def parseIngredient : JVal → Option (String × ℚ)
  | .obj kvs =>
    match objGet kvs "name", objGet kvs "quantity" with
    | some (.str n), some q =>
      match q with
      | .num x => some (pyStrip (pyLower n), x)
      | .str s => (pyParseFloat s).map (fun x => (pyStrip (pyLower n), x))
      | .bool b => some (pyStrip (pyLower n), if b then 1 else 0)
      | _ => none
    | _, _ => none
  | _ => none

/-- The vision ingredient list, all entries parsed. -/
def parseIngredients : List JVal → Option (List (String × ℚ))
  | [] => some []
  | x :: xs =>
    match parseIngredient x, parseIngredients xs with
    | some p, some ps => some (p :: ps)
    | _, _ => none

/-- `min(100, max(0, data.get("confidence", 0)))`; a non-numeric present
value raises in the comparison. -/
def parseConfidence (kvs : List (String × JVal)) : Option ℚ :=
  match objGet kvs "confidence" with
  | none => some 0
  | some (.num c) => some (min 100 (max 0 c))
  | some (.bool b) => some (min 100 (max 0 (if b then (1:ℚ) else 0)))
  | some _ => none

/-- `FoodAnalyser.get_dish_details_from_image`: invokes the client with
the vision prompt, caching disabled and the image forwarded, decodes the
text field with `json.loads`, and validates the dish structure.  Every
failure inside the try block degrades to the single FoodAnalyserError
message of the source. -/
def get_dish_details (env : AnalyserEnv) (image : JVal) : Except String DishData :=
  match env.clientInvoke vision_prompt false image with
  | .error _ => .error "Could not analyze food image"
  | .ok resp =>
    match resp with
    | .obj kvs =>
      match objGet kvs "text" with
      | some (.str t) =>
        match env.jsonLoads t with
        | .error _ => .error "Could not analyze food image"
        | .ok (.obj dkvs) =>
          match objGet dkvs "dish_name", objGet dkvs "ingredients" with
          | some (.str dn), some (.arr items) =>
            match parseIngredients items, parseConfidence dkvs with
            | some ings, some conf => .ok ⟨pyStrip dn, ings, conf⟩
            | _, _ => .error "Could not analyze food image"
          | _, _ => .error "Could not analyze food image"
        | .ok _ => .error "Could not analyze food image"
      | _ => .error "Could not analyze food image"
    | _ => .error "Could not analyze food image"

/-- `totals[k] - reqs.get(k, 0)` for one nutrient: a present value that
is not a number raises TypeError in the subtraction. -/
def reqValue (reqs : List (String × JVal)) (k : String) : Except String ℚ :=
  match objGet reqs k with
  | none => .ok 0
  | some (.num q) => .ok q
  | some (.bool b) => .ok (if b then 1 else 0)
  | some _ => .error "unsupported operand type for subtraction"

/-- The deviation dict of `run`: totals minus requirements, over the keys
of the totals dict in order. -/
def computeDeviation (totals : List (String × ℚ)) (reqs : List (String × JVal)) :
    Except String (List (String × ℚ)) :=
  match totals with
  | [] => .ok []
  | (k, v) :: rest =>
    match reqValue reqs k, computeDeviation rest reqs with
    | .ok r, .ok tail => .ok ((k, qSub v r) :: tail)
    | .error m, _ => .error m
    | .ok _, .error m => .error m

/-- The two except clauses of `FoodAnalyser.run`: the FoodAnalyserError
clause and the generic Exception clause. -/
inductive RunExc where
  | foodAnalyser (msg : String)
  | generic (msg : String)

/-- The success result map of `FoodAnalyser.run`, keyed exactly as in the
source. -/
def success_map (dish : DishData) (factors : List (String × ℚ)) (nr : CalcOut)
    (reqs : List (String × JVal)) (deviation : List (String × ℚ)) :
    List (String × JVal) :=
  [("dish_name", .str dish.dish_name),
   ("confidence", .num dish.confidence),
   ("ingredients", .arr (dish.ingredients.map (fun p => .arr [.str p.1, .num p.2]))),
   ("ingredient_details", .arr nr.ingredient_details),
   ("cooking_method", .str (match factors with | [] => "Unknown" | p :: _ => p.1)),
   ("current_nutrients", profJ nr.totals),
   ("req_nutrients", .obj reqs),
   ("deviation", profJ deviation),
   ("recommendation", .str (generate_recommendation deviation)),
   ("used_fallback", .arr (nr.fcache.map (fun p => .str p.1)))]

/-- The try block of `FoodAnalyser.run`: image analysis, cooking factors,
nutrient totals, deviation against the requirements, and the final result
map. -/
def runE (env : AnalyserEnv) (fcache0 : List (String × List (String × ℚ)))
    (data : List (String × JVal)) : Except RunExc (List (String × JVal)) :=
  match objGet data "food_data" with
  | none => .error (.generic "food_data")
  | some food_data =>
    match get_dish_details env food_data with
    | .error m => .error (.foodAnalyser m)
    | .ok dish =>
      let factors := get_cooking_factor dish.dish_name
      let ingredients := dish.ingredients
      let nr := calculate_total_nutrients env ingredients factors fcache0
      match objGet data "req_data" with
      | none => .error (.generic "req_data")
      | some (.obj reqs) =>
        match computeDeviation nr.totals reqs with
        | .error m => .error (.generic m)
        | .ok deviation => .ok (success_map dish factors nr reqs deviation)
      | some _ => .error (.generic "req_data has no attribute get")

/-- `FoodAnalyser.run`: the try block with its two except clauses.  The
FoodAnalyserError clause produces an error map with a stage marker; the
generic clause produces an error map without one.  The function is total:
no input makes it raise. -/
def FoodAnalyser.run (env : AnalyserEnv) (fcache0 : List (String × List (String × ℚ)))
    (data : List (String × JVal)) : List (String × JVal) :=
  match runE env fcache0 data with
  | .ok r => r
  | .error (.foodAnalyser m) => [("error", .str m), ("stage", .str "food_analysis")]
  | .error (.generic m) => [("error", .str ("Unexpected error: " ++ m))]

/-! ## Concrete analyser fixtures used by witness and counterexample theorems -/

/-- A store record with a nonempty profile. -/
def wRec : DBRecord := ⟨"rice", [("proteins", 5)]⟩

/-- Analyser oracles where tier 1 always hits. -/
def wEnvT1 : AnalyserEnv :=
  ⟨fun _ => some wRec, fun _ => [], fun _ _ _ => .error "down", fun _ => [],
   fun _ => .error "bad"⟩

/-- Analyser oracles where tier 1 misses and tier 2 hits. -/
def wEnvT2 : AnalyserEnv :=
  ⟨fun _ => none, fun _ => [wRec], fun _ _ _ => .error "down", fun _ => [],
   fun _ => .error "bad"⟩

/-- Analyser oracles where both store tiers miss, the vision call answers
with a one-ingredient dish, and the LLM fallback invocation fails. -/
def wEnvC5 : AnalyserEnv :=
  ⟨fun _ => none, fun _ => [],
   fun p _ _ => if p == vision_prompt then .ok (.obj [("text", .str "V")]) else .error "down",
   fun _ => [],
   fun t => if t == "V" then
       .ok (.obj [("dish_name", .str "soup"),
         ("ingredients", .arr [.obj [("name", .str "unicorn"), ("quantity", .num 100)]])])
     else .error "bad"⟩

/-- Analyser oracles whose vision call answers with a zero-ingredient dish. -/
def wEnvC7 : AnalyserEnv :=
  ⟨fun _ => none, fun _ => [],
   fun p _ _ => if p == vision_prompt then .ok (.obj [("text", .str "V")]) else .error "down",
   fun _ => [],
   fun _ => .ok (.obj [("dish_name", .str "soup"), ("ingredients", .arr [])])⟩

/-- Input map with an image and a protein requirement of 50. -/
def wDataC7 : List (String × JVal) :=
  [("food_data", .str "img"), ("req_data", .obj [("proteins", .num 50)])]

/-- Input map with an image and an empty requirement dict. -/
def wDataC5 : List (String × JVal) :=
  [("food_data", .str "img"), ("req_data", .obj [])]

/-! ## Bridge lemmas for the computable rational operations -/

theorem qAdd_eq (a b : ℚ) : qAdd a b = a + b := by
  have ha : ((a.den : ℚ)) ≠ 0 := Nat.cast_ne_zero.mpr a.den_nz
  have hb : ((b.den : ℚ)) ≠ 0 := Nat.cast_ne_zero.mpr b.den_nz
  rw [qAdd, Rat.divInt_eq_div]
  push_cast
  conv_rhs => rw [← Rat.num_div_den a, ← Rat.num_div_den b]
  rw [div_add_div _ _ ha hb]
  ring_nf

theorem qMul_eq (a b : ℚ) : qMul a b = a * b := by
  rw [qMul, Rat.divInt_eq_div]
  push_cast
  conv_rhs => rw [← Rat.num_div_den a, ← Rat.num_div_den b]
  rw [div_mul_div_comm]

theorem qSub_eq (a b : ℚ) : qSub a b = a - b := by
  have ha : ((a.den : ℚ)) ≠ 0 := Nat.cast_ne_zero.mpr a.den_nz
  have hb : ((b.den : ℚ)) ≠ 0 := Nat.cast_ne_zero.mpr b.den_nz
  rw [qSub, Rat.divInt_eq_div]
  push_cast
  conv_rhs => rw [← Rat.num_div_den a, ← Rat.num_div_den b]
  rw [div_sub_div _ _ ha hb]
  ring_nf

theorem qDiv_eq (a b : ℚ) : qDiv a b = a / b := by
  rw [qDiv, Rat.divInt_eq_div]
  push_cast
  conv_rhs => rw [← Rat.num_div_den a, ← Rat.num_div_den b]
  ring_nf
  rw [inv_inv]
  ring

/-- The truncating estimator agrees with the rational floor of
`word_count * 1.3`. -/
theorem estimate_floor_aux (n : ℕ) : ((n * 13 / 10 : ℕ) : ℤ) = ⌊(n : ℚ) * (13/10)⌋ := by
  rw [eq_comm, Int.floor_eq_iff]
  have hle : ((n * 13 / 10 : ℕ) : ℚ) ≤ (n : ℚ) * (13/10) := by
    calc ((n * 13 / 10 : ℕ) : ℚ) ≤ ((n * 13 : ℕ) : ℚ) / 10 := by
          exact_mod_cast Nat.cast_div_le
       _ = (n : ℚ) * (13/10) := by push_cast; ring
  constructor
  · exact_mod_cast hle
  · have hlt : n * 13 % 10 < 10 := Nat.mod_lt _ (by norm_num)
    have heq : ((n * 13 : ℕ) : ℚ) = 10 * ((n * 13 / 10 : ℕ) : ℚ) + ((n * 13 % 10 : ℕ) : ℚ) := by
      exact_mod_cast congrArg (Nat.cast : ℕ → ℚ) (Nat.div_add_mod (n * 13) 10).symm
    have hm : ((n * 13 % 10 : ℕ) : ℚ) < 10 := by exact_mod_cast hlt
    have hx : (n : ℚ) * (13/10) = ((n * 13 : ℕ) : ℚ) / 10 := by push_cast; ring
    have h2 : (((n * 13 / 10 : ℕ) : ℤ) : ℚ) = ((n * 13 / 10 : ℕ) : ℚ) := by norm_cast
    rw [hx, heq, h2, div_lt_iff₀ (by norm_num : (0:ℚ) < 10)]
    linarith

/-! ## C6: the token estimator -/

/-- C6 counterexample: on a three-word text the estimator returns 3 while
the claimed formula `round(word_count * 1.3)` gives `round(3.9) = 4`, so
the estimator truncates rather than rounds. -/
theorem estimate_tokens_not_round_cex :
    estimate_tokens "a b c" = 3 ∧ countWords "a b c".toList false = 3 ∧
    round ((3 : ℚ) * (13/10)) = 4 := by
  refine ⟨by decide, by decide, ?_⟩
  have h1 : ((3:ℚ) * (13/10)) = 39/10 := by norm_num
  rw [h1, round_eq]
  have h2 : ((39:ℚ)/10 + 1/2) = 22/5 := by norm_num
  rw [h2]
  rw [Int.floor_eq_iff] <;> norm_num

/-- C6 (amended): the token estimator is the deterministic function
`floor(word_count * 1.3)` (Python `int` truncation) of the input text,
with `estimate("") = 0` and `estimate("hello") = 1`; it differs from
`round(word_count * 1.3)` exactly where the fractional part reaches one
half. -/
theorem estimate_tokens_truncates :
    estimate_tokens "" = 0 ∧ estimate_tokens "hello" = 1 ∧
    ∀ text : String,
      (estimate_tokens text : ℤ) = ⌊(countWords text.toList false : ℚ) * (13/10)⌋ :=
  ⟨by decide, by decide, fun _ => estimate_floor_aux _⟩

/-! ## C4: configuration validation -/

/-- C4 counterexample: an unparseable MAX_TOKENS fails construction with
the plain ValueError of the source, not with the ConfigError the claim
requires. -/
theorem config_parse_failure_not_config_error_cex :
    mkModelConfig [("MAX_TOKENS", "abc")] =
      .error (.valueError "MAX_TOKENS must be a valid integer") ∧
    ∀ msg, mkModelConfig [("MAX_TOKENS", "abc")] ≠ .error (.configError msg) := by
  refine ⟨rfl, fun msg h => ?_⟩
  rw [(rfl : mkModelConfig [("MAX_TOKENS", "abc")] =
      .error (.valueError "MAX_TOKENS must be a valid integer"))] at h
  exact ConfigException.noConfusion (Except.error.inj h)

/-- C4 (amended): construction validates eagerly; every configuration
that completes construction satisfies `max_tokens > 0` and
`temperature ∈ [0, 1]`; parsed values violating the ranges fail with
ConfigError; values that do not parse fail with the plain ValueError
raised by `int()`/`float()` conversion (not ConfigError). -/
theorem config_validation :
    (∀ env c, mkModelConfig env = .ok c →
      0 < c.max_tokens ∧ 0 ≤ c.temperature ∧ c.temperature ≤ 1) ∧
    (∀ env n q, parseMaxTokens env = .ok n → parseTemp env = .ok q → n ≤ 0 →
      mkModelConfig env = .error (.configError "MAX_TOKENS must be greater than 0")) ∧
    (∀ env n q, parseMaxTokens env = .ok n → 0 < n → parseTemp env = .ok q →
      (q < 0 ∨ 1 < q) →
      mkModelConfig env = .error (.configError "TEMPERATURE must be between 0 and 1")) ∧
    (∀ env e, parseMaxTokens env = .error e → mkModelConfig env = .error e) ∧
    (∀ env n e, parseMaxTokens env = .ok n → parseTemp env = .error e →
      mkModelConfig env = .error e) := by
  refine ⟨?_, ?_, ?_, ?_, ?_⟩
  · intro env c h
    unfold mkModelConfig at h
    cases hmt : parseMaxTokens env with
    | error e => rw [hmt] at h; simp at h
    | ok mt =>
      cases htp : parseTemp env with
      | error e => rw [hmt, htp] at h; simp at h
      | ok tp =>
        rw [hmt, htp] at h
        dsimp only at h
        split at h
        · exact absurd h (by simp)
        · split at h
          · exact absurd h (by simp)
          · rename_i h1 h2
            push_neg at h1 h2
            obtain ⟨h2a, h2b⟩ := h2
            injection h with h
            subst h
            exact ⟨h1, h2a, h2b⟩
  · intro env n q h htp hle
    unfold mkModelConfig
    rw [h, htp]
    dsimp only
    rw [if_pos hle]
  · intro env n q hmt hpos htp hrange
    unfold mkModelConfig
    rw [hmt, htp]
    dsimp only
    rw [if_neg (not_le.mpr hpos), if_pos hrange]
  · intro env e h
    unfold mkModelConfig
    rw [h]
  · intro env n e hmt htp
    unfold mkModelConfig
    rw [hmt, htp]

/-- C4 witness: the default environment constructs a valid configuration;
MAX_TOKENS = 0 and TEMP = 2 fail with ConfigError; MAX_TOKENS = abc fails
with ValueError. -/
theorem config_validation_witness :
    (0 < (⟨"meta", "meta.llama3-2-90b-instruct-v1:0", "us-east-1", 8000, 0⟩ :
        ModelConfig).max_tokens ∧
      (0:ℚ) ≤ (⟨"meta", "meta.llama3-2-90b-instruct-v1:0", "us-east-1", 8000, 0⟩ :
        ModelConfig).temperature ∧
      (⟨"meta", "meta.llama3-2-90b-instruct-v1:0", "us-east-1", 8000, 0⟩ :
        ModelConfig).temperature ≤ 1) ∧
    mkModelConfig [("MAX_TOKENS", "0")] =
      .error (.configError "MAX_TOKENS must be greater than 0") ∧
    mkModelConfig [("TEMP", "2")] =
      .error (.configError "TEMPERATURE must be between 0 and 1") ∧
    mkModelConfig [("MAX_TOKENS", "abc")] =
      .error (.valueError "MAX_TOKENS must be a valid integer") :=
  ⟨config_validation.1 [] _ rfl,
   config_validation.2.1 [("MAX_TOKENS", "0")] 0 0 rfl rfl (by decide),
   config_validation.2.2.1 [("TEMP", "2")] 8000 2 rfl (by decide) rfl
     (Or.inr (by norm_num)),
   config_validation.2.2.2.1 [("MAX_TOKENS", "abc")] _ rfl⟩

/-! ## Helper lemmas about the response cache and the parser -/

theorem find_map_replace (l : List (String × JVal)) (k : String) (v : JVal)
    (h : l.any (fun p => p.1 == k) = true) :
    (l.map (fun p => if p.1 == k then (k, v) else p)).find? (fun p => p.1 == k) = some (k, v) := by
  induction l with
  | nil => simp at h
  | cons hd tl ih =>
    cases hk : (hd.1 == k) with
    | true => simp [List.find?, hk]
    | false =>
      simp only [List.any_cons, hk, Bool.false_or] at h
      rw [List.map_cons, if_neg (by simp [hk]),
        List.find?_cons_of_neg _ (by simp [hk])]
      exact ih h

theorem find_append_right (l : List (String × JVal)) (k : String) (v : JVal)
    (h : l.any (fun p => p.1 == k) = false) :
    (l ++ [(k, v)]).find? (fun p => p.1 == k) = some (k, v) := by
  induction l with
  | nil => simp [List.find?]
  | cons hd tl ih =>
    simp only [List.any_cons, Bool.or_eq_false_iff] at h
    simp only [List.cons_append, List.find?, h.1]
    exact ih h.2

/-- After `set`, looking up the written key returns the written value. -/
theorem cache_get_set (c : ResponseCache) (k : String) (v : JVal) :
    (c.set k v).get k = some v := by
  unfold ResponseCache.set ResponseCache.get objGet
  dsimp only
  set cache1 := if c.max_size ≤ c.cache.length then c.cache.tail else c.cache with hc1
  by_cases h : cache1.any (fun p => p.1 == k) = true
  · rw [if_pos h, find_map_replace _ _ _ h]
    rfl
  · rw [if_neg h, find_append_right _ _ _ (by revert h; cases cache1.any (fun p => p.1 == k) <;> simp)]
    rfl

/-- A successfully formatted request implies the provider is one of the
three recognized families. -/
theorem format_prompt_ok_provider (cfg : ModelConfig) (prompt img : String) (body : JVal)
    (h : format_prompt cfg prompt img = .ok body) :
    (cfg.model_provider == "anthropic") = true ∨ (cfg.model_provider == "meta") = true ∨
    (cfg.model_provider == "mistral") = true := by
  unfold format_prompt at h
  split at h
  · left; assumption
  · split at h
    · right; left; assumption
    · split at h
      · right; right; assumption
      · simp at h

/-- For a recognized provider, a successfully parsed response is a
nonempty dict (it has the single key "text"), hence truthy. -/
theorem parse_response_ok_truthy (cfg : ModelConfig) (rb v : JVal)
    (hp : (cfg.model_provider == "anthropic") = true ∨ (cfg.model_provider == "meta") = true ∨
      (cfg.model_provider == "mistral") = true)
    (h : parse_response cfg rb = .ok v) : v.truthy = true := by
  unfold parse_response at h
  rcases hp with hp | hp | hp <;> rw [eq_of_beq hp] at h
  · have hc1 : (("anthropic" == "anthropic") = true) := rfl
    rw [if_pos hc1] at h
    split at h <;> cases rb <;> dsimp only at h <;>
      first
      | exact Except.noConfusion h
      | (injection h with h2; subst h2; rfl)
      | (split at h <;>
          first
          | exact Except.noConfusion h
          | (injection h with h2; subst h2; rfl)
          | (subst h; rfl)
          | (split at h <;>
              first
              | exact Except.noConfusion h
              | (injection h with h2; subst h2; rfl)
              | (subst h; rfl)))
  · have hc1 : ¬ (("meta" == "anthropic") = true) := by decide
    have hc2 : (("meta" == "meta") = true) := rfl
    rw [if_neg hc1, if_pos hc2] at h
    cases rb <;> dsimp only at h <;>
      first
      | exact Except.noConfusion h
      | (injection h with h2; subst h2; rfl)
  · have hc1 : ¬ (("mistral" == "anthropic") = true) := by decide
    have hc2 : ¬ (("mistral" == "meta") = true) := by decide
    have hc3 : (("mistral" == "mistral") = true) := rfl
    rw [if_neg hc1, if_neg hc2, if_pos hc3] at h
    cases rb <;> dsimp only at h <;>
      first
      | exact Except.noConfusion h
      | (injection h with h2; subst h2; rfl)
      | (split at h <;>
          first
          | exact Except.noConfusion h
          | (injection h with h2; subst h2; rfl)
          | (subst h; rfl)
          | (split at h <;>
              first
              | exact Except.noConfusion h
              | (injection h with h2; subst h2; rfl)
              | (subst h; rfl)))

/-- On a cache miss, a successful `invoke` try block made exactly one
upstream call, stored the parsed (truthy) response under the fingerprint,
and returned it. -/
theorem invokeTry_ok_of_miss (cfg : ModelConfig) (oracle : JVal → UpstreamResult)
    (cache0 : ResponseCache) (prompt img : String) (v : JVal) (c : ResponseCache)
    (ev : List MEvent) (n : Nat)
    (hmiss : cache0.get (get_cache_key cfg prompt) = none)
    (h : invokeTry cfg oracle cache0 prompt true img = (.ok v, c, ev, n)) :
    n = 1 ∧ c = cache0.set (get_cache_key cfg prompt) v ∧ v.truthy = true := by
  unfold invokeTry at h
  dsimp only at h
  rw [hmiss] at h
  simp only [if_true] at h
  split at h
  · simp at h
  · split at h
    · simp at h
    · simp at h
    · split at h
      · simp at h
      · split at h
        · simp at h
        · split at h
          · simp at h
          · split at h
            · simp at h
            · simp only [if_true, Prod.mk.injEq] at h
              obtain ⟨h1, h2, h3, h4⟩ := h
              injection h1 with h1
              refine ⟨h4.symm, ?_, ?_⟩
              · rw [← h1]; exact h2.symm
              · rw [← h1]
                exact parse_response_ok_truthy cfg _ _
                  (format_prompt_ok_provider cfg prompt img _ (by assumption)) (by assumption)

/-- Shared cache-roundtrip argument: starting from a miss, a successful
first `invoke` makes one upstream call and a second `invoke` with the
same prompt (and any image) is answered from the cache with no upstream
call, returning the stored response. -/
theorem invoke_roundtrip_aux (cfg : ModelConfig) (oracle : JVal → UpstreamResult)
    (cache0 : ResponseCache) (prompt img img2 : String) (v : JVal)
    (hmiss : cache0.get (get_cache_key cfg prompt) = none)
    (hok : (invoke cfg oracle cache0 prompt true img).result = .ok v) :
    (invoke cfg oracle cache0 prompt true img).upstreamCalls = 1 ∧
    (invoke cfg oracle (invoke cfg oracle cache0 prompt true img).cache
      prompt true img2).result = .ok v ∧
    (invoke cfg oracle (invoke cfg oracle cache0 prompt true img).cache
      prompt true img2).upstreamCalls = 0 := by
  rcases htry : invokeTry cfg oracle cache0 prompt true img with ⟨res, c, ev, n⟩
  cases res with
  | error e => cases e <;> simp [invoke, htry] at hok
  | ok v0 =>
    obtain ⟨hn, hc, htru⟩ := invokeTry_ok_of_miss cfg oracle cache0 prompt img v0 c ev n hmiss htry
    simp only [invoke, htry] at hok ⊢
    injection hok with hok
    subst v0
    subst hn
    subst hc
    have hget : (cache0.set (get_cache_key cfg prompt) v).get (get_cache_key cfg prompt)
        = some v := cache_get_set cache0 _ v
    have h2 : invokeTry cfg oracle (cache0.set (get_cache_key cfg prompt) v) prompt true img2
        = (.ok v, cache0.set (get_cache_key cfg prompt) v, [.cacheHit], 0) := by
      unfold invokeTry
      dsimp only
      simp only [hget, htru]
      simp
    simp only [invoke, h2]
    simp

/-! ## C1: cache round trip -/

/-- C1: with caching enabled and the fingerprint not yet cached, a
successful `invoke` performs exactly one upstream call, and a second
`invoke` with the same prompt and configuration is answered from the
shared cache: it returns the response stored by the first call and makes
no upstream call. -/
theorem invoke_cache_roundtrip (cfg : ModelConfig) (oracle : JVal → UpstreamResult)
    (cache0 : ResponseCache) (prompt img : String) (v : JVal)
    (hmiss : cache0.get (get_cache_key cfg prompt) = none)
    (hok : (invoke cfg oracle cache0 prompt true img).result = .ok v) :
    (invoke cfg oracle cache0 prompt true img).upstreamCalls = 1 ∧
    (invoke cfg oracle (invoke cfg oracle cache0 prompt true img).cache
      prompt true img).result = .ok v ∧
    (invoke cfg oracle (invoke cfg oracle cache0 prompt true img).cache
      prompt true img).upstreamCalls = 0 :=
  invoke_roundtrip_aux cfg oracle cache0 prompt img img v hmiss hok

/-- C1 witness: a concrete LLAMA configuration against a constant 200
endpoint. -/
theorem invoke_cache_roundtrip_witness :
    (wCache.get (get_cache_key wCfg "p") = none) ∧
    ((invoke wCfg wOracle wCache "p" true "").result = .ok (.obj [("text", .str "hi")])) ∧
    ((invoke wCfg wOracle wCache "p" true "").upstreamCalls = 1 ∧
     (invoke wCfg wOracle (invoke wCfg wOracle wCache "p" true "").cache
       "p" true "").result = .ok (.obj [("text", .str "hi")]) ∧
     (invoke wCfg wOracle (invoke wCfg wOracle wCache "p" true "").cache
       "p" true "").upstreamCalls = 0) :=
  ⟨rfl, by with_unfolding_all rfl,
   invoke_cache_roundtrip wCfg wOracle wCache "p" "" _ rfl (by with_unfolding_all rfl)⟩

/-! ## C10: the cache fingerprint ignores the image -/

/-- C10: the cache fingerprint depends on exactly the prompt, model id,
temperature and max_tokens (in particular not on the image or any other
configuration field), so a second cached call with the same prompt and
configuration but a different image is answered from the entry stored by
the first call, with no upstream call. -/
theorem cache_key_ignores_image :
    (∀ (cfg cfg2 : ModelConfig) (prompt img img2 : String),
      cfg.model_id = cfg2.model_id → cfg.temperature = cfg2.temperature →
      cfg.max_tokens = cfg2.max_tokens →
      get_cache_key cfg prompt img = get_cache_key cfg2 prompt img2) ∧
    (∀ (cfg : ModelConfig) (oracle : JVal → UpstreamResult) (cache0 : ResponseCache)
      (prompt img img2 : String) (v : JVal), img ≠ img2 →
      cache0.get (get_cache_key cfg prompt) = none →
      (invoke cfg oracle cache0 prompt true img).result = .ok v →
      (invoke cfg oracle (invoke cfg oracle cache0 prompt true img).cache
        prompt true img2).result = .ok v ∧
      (invoke cfg oracle (invoke cfg oracle cache0 prompt true img).cache
        prompt true img2).upstreamCalls = 0) := by
  constructor
  · intro cfg cfg2 prompt img img2 h1 h2 h3
    unfold get_cache_key
    rw [h1, h2, h3]
  · intro cfg oracle cache0 prompt img img2 v hne hmiss hok
    exact ⟨(invoke_roundtrip_aux cfg oracle cache0 prompt img img2 v hmiss hok).2.1,
           (invoke_roundtrip_aux cfg oracle cache0 prompt img img2 v hmiss hok).2.2⟩

/-- C10 witness: two configurations differing in provider and region but
agreeing on the key fields produce the same fingerprint for different
images, and a concrete second call with a different image is served from
the cache. -/
theorem cache_key_ignores_image_witness :
    (get_cache_key ⟨"meta", "m", "r", 10, 0⟩ "p" "img1" =
      get_cache_key ⟨"anthropic", "m", "x", 10, 0⟩ "p" "img2") ∧
    (("a" : String) ≠ "b") ∧ (wCache.get (get_cache_key wCfg "p") = none) ∧
    ((invoke wCfg wOracle wCache "p" true "a").result = .ok (.obj [("text", .str "hi")])) ∧
    ((invoke wCfg wOracle (invoke wCfg wOracle wCache "p" true "a").cache
       "p" true "b").result = .ok (.obj [("text", .str "hi")]) ∧
     (invoke wCfg wOracle (invoke wCfg wOracle wCache "p" true "a").cache
       "p" true "b").upstreamCalls = 0) :=
  ⟨cache_key_ignores_image.1 ⟨"meta", "m", "r", 10, 0⟩ ⟨"anthropic", "m", "x", 10, 0⟩
      "p" "img1" "img2" rfl rfl rfl,
   by decide, rfl, by with_unfolding_all rfl,
   cache_key_ignores_image.2 wCfg wOracle wCache "p" "a" "b" _ (by decide) rfl
     (by with_unfolding_all rfl)⟩

/-! ## C2: 429 handling -/

/-- C2 counterexample: on a 429 the error counter is recorded twice, not
once: once when the non-200 status is classified, and once more in the
`except BedrockClientError` clause that re-raises the rate-limit error. -/
theorem rate_limit_single_count_cex :
    (invoke wCfg wOracle429 wCache "p" true "").result =
      .error (.rateLimitError "Rate limit exceeded") ∧
    countReq "m" "error" (invoke wCfg wOracle429 wCache "p" true "").events = 2 :=
  ⟨by with_unfolding_all rfl, by with_unfolding_all rfl⟩

/-- C2 (amended): an upstream 429 makes `invoke` raise the rate-limit
specific `BedrockRateLimitError` (distinguishable from the generic
error), after exactly one upstream call; the per-model request counter
records status "error" exactly twice for that call. -/
theorem rate_limit_error_and_double_count (cfg : ModelConfig)
    (oracle : JVal → UpstreamResult) (cache0 : ResponseCache)
    (prompt img : String) (body : JVal) (bodyb : BodyBytes)
    (hmiss : cache0.get (get_cache_key cfg prompt) = none)
    (hfmt : format_prompt cfg prompt img = .ok body)
    (h429 : oracle body = .http 429 bodyb) :
    (invoke cfg oracle cache0 prompt true img).result =
      .error (.rateLimitError "Rate limit exceeded") ∧
    countReq cfg.model_id "error" (invoke cfg oracle cache0 prompt true img).events = 2 ∧
    (invoke cfg oracle cache0 prompt true img).upstreamCalls = 1 := by
  have htry : invokeTry cfg oracle cache0 prompt true img =
      (.error (.client (.rateLimitError "Rate limit exceeded")), cache0,
        [MEvent.cacheMiss] ++ [MEvent.tokensIn cfg.model_id (estimate_tokens prompt)] ++
          [MEvent.responseTime cfg.model_id] ++ [MEvent.reqCounter cfg.model_id "error"], 1) := by
    unfold invokeTry
    simp only [hmiss]
    simp only [hfmt]
    simp only [h429]
    simp
  refine ⟨?_, ?_, ?_⟩ <;>
    simp [invoke, htry, countReq, isReqCounter]

/-! ## C9: request-counter updates per terminal outcome -/

/-- In the try block, a successful outcome either came from the cache-hit
early return (exactly one hit event, no upstream call) or went through
status classification, which records at least one request-counter
event. -/
theorem invokeTry_ok_events (cfg : ModelConfig) (oracle : JVal → UpstreamResult)
    (cache0 : ResponseCache) (prompt : String) (uc : Bool) (img : String)
    (v : JVal) (c : ResponseCache) (ev : List MEvent) (n : Nat)
    (h : invokeTry cfg oracle cache0 prompt uc img = (.ok v, c, ev, n)) :
    (ev = [MEvent.cacheHit] ∧ n = 0) ∨ 1 ≤ countReqAll ev := by
  unfold invokeTry at h
  dsimp only at h
  cases uc with
  | false =>
    simp only [Bool.false_eq_true, if_false] at h
    right
    repeat' split at h
    all_goals
      first
      | (simp at h; done)
      | (simp only [Prod.mk.injEq] at h
         obtain ⟨h1, h2, h3, h4⟩ := h
         subst h3
         simp [countReqAll, isReqCounterAny])
  | true =>
    simp only [if_true] at h
    cases hget : cache0.get (get_cache_key cfg prompt) with
    | none =>
      rw [hget] at h
      dsimp only at h
      right
      repeat' split at h
      all_goals
        first
        | (simp at h; done)
        | (simp only [Prod.mk.injEq] at h
           obtain ⟨h1, h2, h3, h4⟩ := h
           subst h3
           simp [countReqAll, isReqCounterAny])
    | some w =>
      rw [hget] at h
      dsimp only at h
      cases htr : w.truthy with
      | true =>
        rw [htr] at h
        simp only [if_true] at h
        simp only [Prod.mk.injEq] at h
        obtain ⟨h1, h2, h3, h4⟩ := h
        left
        exact ⟨h3.symm, h4.symm⟩
      | false =>
        rw [htr] at h
        simp only [Bool.false_eq_true, if_false] at h
        right
        repeat' split at h
        all_goals
          first
          | (simp at h; done)
          | (simp only [Prod.mk.injEq] at h
             obtain ⟨h1, h2, h3, h4⟩ := h
             subst h3
             simp [countReqAll, isReqCounterAny])

/-- C9 (amended): every terminal outcome of `invoke` other than the
cache-hit early return updates the status-tagged request counter at least
once (the 429 and response-parse-failure paths update it twice); the
cache-hit return updates it zero times while making no upstream call and
returning successfully. -/
theorem request_counter_updated_unless_cache_hit (cfg : ModelConfig)
    (oracle : JVal → UpstreamResult) (cache0 : ResponseCache)
    (prompt : String) (uc : Bool) (img : String) :
    1 ≤ countReqAll (invoke cfg oracle cache0 prompt uc img).events ∨
    (countReqAll (invoke cfg oracle cache0 prompt uc img).events = 0 ∧
     (invoke cfg oracle cache0 prompt uc img).upstreamCalls = 0 ∧
     ∃ v, (invoke cfg oracle cache0 prompt uc img).result = .ok v) := by
  rcases htry : invokeTry cfg oracle cache0 prompt uc img with ⟨res, c, ev, n⟩
  cases res with
  | error e =>
    left
    cases e <;> simp [invoke, htry, countReqAll, isReqCounterAny] <;> omega
  | ok v =>
    rcases invokeTry_ok_events cfg oracle cache0 prompt uc img v c ev n htry with
      ⟨hev, hn⟩ | hcount
    · right
      subst hev hn
      refine ⟨?_, ?_, v, ?_⟩ <;> simp [invoke, htry, countReqAll, isReqCounterAny]
    · left
      simp only [invoke, htry]
      simpa [countReqAll, isReqCounterAny] using hcount

/-- C9 counterexample: the cache-hit path is a terminal (successful)
outcome of `invoke` that performs zero request-counter updates, not
exactly one. -/
theorem cache_hit_no_counter_update_cex :
    (invoke wCfg wOracle wCacheHit "p" true "").result = .ok (.obj [("text", .str "hi")]) ∧
    countReqAll (invoke wCfg wOracle wCacheHit "p" true "").events = 0 :=
  ⟨by with_unfolding_all rfl, by with_unfolding_all rfl⟩

/-- C2 witness: a concrete 429 endpoint. -/
theorem rate_limit_error_and_double_count_witness :
    (wCache.get (get_cache_key wCfg "p") = none) ∧
    (format_prompt wCfg "p" "" = .ok (.obj [("prompt", .str "p"),
      ("max_gen_len", .num ((10 : Int) : ℚ)), ("temperature", .num 0)])) ∧
    (wOracle429 (.obj [("prompt", .str "p"), ("max_gen_len", .num ((10 : Int) : ℚ)),
      ("temperature", .num 0)]) = .http 429 (.json (.obj []))) ∧
    ((invoke wCfg wOracle429 wCache "p" true "").result =
      .error (.rateLimitError "Rate limit exceeded") ∧
     countReq wCfg.model_id "error" (invoke wCfg wOracle429 wCache "p" true "").events = 2 ∧
     (invoke wCfg wOracle429 wCache "p" true "").upstreamCalls = 1) :=
  ⟨rfl, by with_unfolding_all rfl, rfl,
   rate_limit_error_and_double_count wCfg wOracle429 wCache "p" "" _ _ rfl
     (by with_unfolding_all rfl) rfl⟩

/-! ## C3: three-tier resolution short-circuits -/

/-- C3: a tier-1 hit (exact lookup with a nonempty profile) returns that
profile without reaching tier 2 or tier 3; a tier-2 hit (top-1 similar
record with a nonempty profile) returns that profile without reaching
tier 3. -/
theorem fallback_tiers_short_circuit :
    (∀ (env : AnalyserEnv) (fcache : List (String × List (String × ℚ)))
      (ingredient : String) (r : DBRecord),
      env.get_nutrient_data ingredient = some r → r.nutrients ≠ [] →
      get_nutrients_with_fallback env fcache ingredient =
        ⟨r.nutrients, fcache, false, false⟩) ∧
    (∀ (env : AnalyserEnv) (fcache : List (String × List (String × ℚ)))
      (ingredient : String) (r2 : DBRecord) (rest : List DBRecord),
      (∀ r, env.get_nutrient_data ingredient = some r → r.nutrients = []) →
      env.search_similar ingredient = r2 :: rest → r2.nutrients ≠ [] →
      (get_nutrients_with_fallback env fcache ingredient).nutrients = r2.nutrients ∧
      (get_nutrients_with_fallback env fcache ingredient).llmCalled = false) := by
  constructor
  · intro env fcache ingredient r hdb hne
    have hF : r.nutrients.isEmpty = false := by
      cases hr : r.nutrients with
      | nil => exact absurd hr hne
      | cons a l => rfl
    unfold get_nutrients_with_fallback
    rw [hdb]
    dsimp only
    rw [hF]
    rfl
  · intro env fcache ingredient r2 rest htier1 hsim hne
    have hF : r2.nutrients.isEmpty = false := by
      cases hr : r2.nutrients with
      | nil => exact absurd hr hne
      | cons a l => rfl
    unfold get_nutrients_with_fallback resolve_tier2
    cases hdb : env.get_nutrient_data ingredient with
    | none => simp [hdb, hsim, hF]
    | some r =>
      have hr : r.nutrients = [] := htier1 r hdb
      simp [hdb, hr, hsim, hF]

/-- C3 witness: a tier-1 hit on a concrete store, and a tier-2 hit when
the exact lookup misses. -/
theorem fallback_tiers_short_circuit_witness :
    (wEnvT1.get_nutrient_data "rice" = some wRec) ∧ (wRec.nutrients ≠ []) ∧
    (get_nutrients_with_fallback wEnvT1 [] "rice" =
      ⟨wRec.nutrients, [], false, false⟩) ∧
    (wEnvT2.search_similar "rice" = [wRec]) ∧
    ((get_nutrients_with_fallback wEnvT2 [] "rice").nutrients = wRec.nutrients ∧
     (get_nutrients_with_fallback wEnvT2 [] "rice").llmCalled = false) :=
  ⟨rfl, by decide, fallback_tiers_short_circuit.1 wEnvT1 [] "rice" wRec rfl (by decide),
   rfl, fallback_tiers_short_circuit.2 wEnvT2 [] "rice" wRec []
     (fun r h => Option.noConfusion h) rfl (by decide)⟩

/-! ## C5: LLM-fallback failure degrades to zeros and is reported -/

/-- Tier 3 always records the ingredient in the per-run cache (either it
was already there or an entry is appended). -/
theorem tier3_mem (env : AnalyserEnv) (fc : List (String × List (String × ℚ)))
    (i : String) :
    (((resolve_tier3 env fc i).cacheAfter.find? (fun p => p.1 == i)).isSome) = true := by
  have htail : ∀ d : List (String × ℚ),
      (((fc ++ [(i, d)]).find? (fun p => p.1 == i)).isSome) = true := by
    intro d
    simp [List.find?_append]
  unfold resolve_tier3
  cases hfc : fc.find? (fun p => p.1 == i) with
  | some p => simp [hfc]
  | none =>
    dsimp only
    split
    · split <;> simp [htail]
    · simp [htail]

/-- `get_nutrients_with_fallback` either leaves the per-run cache
unchanged or appends exactly one entry for the looked-up ingredient. -/
theorem resolve_cacheAfter_eq (env : AnalyserEnv)
    (fc : List (String × List (String × ℚ))) (i : String) :
    (get_nutrients_with_fallback env fc i).cacheAfter = fc ∨
    ∃ d, (get_nutrients_with_fallback env fc i).cacheAfter = fc ++ [(i, d)] := by
  unfold get_nutrients_with_fallback resolve_tier2 resolve_tier3
  dsimp only
  repeat' split
  all_goals simp

/-- When both store tiers miss, the lookup reaches tier 3 and the
ingredient ends up recorded in the per-run cache. -/
theorem resolve_tier3_mem (env : AnalyserEnv)
    (fc : List (String × List (String × ℚ))) (i : String)
    (h1 : ∀ r, env.get_nutrient_data i = some r → r.nutrients = [])
    (h2 : ∀ r rest, env.search_similar i = r :: rest → r.nutrients = []) :
    (((get_nutrients_with_fallback env fc i).cacheAfter.find?
      (fun p => p.1 == i)).isSome) = true := by
  have ht2 : (((resolve_tier2 env fc i).cacheAfter.find?
      (fun p => p.1 == i)).isSome) = true := by
    unfold resolve_tier2
    cases hsim : env.search_similar i with
    | nil => exact tier3_mem env fc i
    | cons r2 rest =>
      try dsimp only
      rw [h2 r2 rest hsim]
      try dsimp only
      simpa using tier3_mem env fc i
  unfold get_nutrients_with_fallback
  cases hdb : env.get_nutrient_data i with
  | none => exact ht2
  | some r =>
    try dsimp only
    rw [h1 r hdb]
    try dsimp only
    simpa using ht2

/-- The ingredient loop only ever extends the per-run cache: a recorded
key stays recorded. -/
theorem calcLoop_cache_mono (env : AnalyserEnv) (factors : List (String × ℚ))
    (ings : List (String × ℚ)) (k : String) :
    ∀ (totals : List (String × ℚ)) (details : List JVal)
      (fc : List (String × List (String × ℚ))),
      ((fc.find? (fun p => p.1 == k)).isSome) = true →
      (((calcLoop env factors ings totals details fc).fcache.find?
        (fun p => p.1 == k)).isSome) = true := by
  induction ings with
  | nil => intro totals details fc h; exact h
  | cons hd rest ih =>
    intro totals details fc h
    obtain ⟨name, qty⟩ := hd
    have hstep : (((get_nutrients_with_fallback env fc name).cacheAfter.find?
        (fun p => p.1 == k)).isSome) = true := by
      rcases resolve_cacheAfter_eq env fc name with hca | ⟨d, hca⟩
      · rw [hca]; exact h
      · rw [hca]
        simp only [List.find?_append, Option.isSome_or, h, Bool.true_or]
    unfold calcLoop
    dsimp only
    split
    · exact ih _ _ _ hstep
    · exact ih _ _ _ hstep

/-- If an ingredient appears in the loop and both store tiers miss for
it, it is recorded in the final per-run cache. -/
theorem calcLoop_adds (env : AnalyserEnv) (factors : List (String × ℚ))
    (ings : List (String × ℚ)) (i : String) (q : ℚ)
    (h1 : ∀ r, env.get_nutrient_data i = some r → r.nutrients = [])
    (h2 : ∀ r rest, env.search_similar i = r :: rest → r.nutrients = []) :
    ∀ (totals : List (String × ℚ)) (details : List JVal)
      (fc : List (String × List (String × ℚ))),
      (i, q) ∈ ings →
      (((calcLoop env factors ings totals details fc).fcache.find?
        (fun p => p.1 == i)).isSome) = true := by
  induction ings with
  | nil => intro totals details fc h; simp at h
  | cons hd rest ih =>
    intro totals details fc hmem
    obtain ⟨name, qty⟩ := hd
    rcases List.mem_cons.mp hmem with heq | htail
    · obtain ⟨hn, hq⟩ := Prod.mk.injEq .. ▸ heq.symm
      subst hn
      have hstep := resolve_tier3_mem env fc name h1 h2
      unfold calcLoop
      dsimp only
      split
      · exact calcLoop_cache_mono env factors rest name _ _ _ hstep
      · exact calcLoop_cache_mono env factors rest name _ _ _ hstep
    · unfold calcLoop
      dsimp only
      split
      · exact ih _ _ _ htail
      · exact ih _ _ _ htail

/-- When every requirement value is numeric (or missing), the deviation
computation succeeds. -/
theorem computeDeviation_ok (totals : List (String × ℚ)) (reqs : List (String × JVal))
    (h : ∀ k, ∃ x, reqValue reqs k = .ok x) :
    ∃ dev, computeDeviation totals reqs = .ok dev := by
  induction totals with
  | nil => exact ⟨[], rfl⟩
  | cons hd rest ih =>
    obtain ⟨k, v⟩ := hd
    obtain ⟨x, hx⟩ := h k
    obtain ⟨dev, hdev⟩ := ih
    exact ⟨(k, qSub v x) :: dev, by unfold computeDeviation; rw [hx, hdev]⟩

/-- The success map never carries an error key. -/
theorem success_map_error_none (dish : DishData) (factors : List (String × ℚ))
    (nr : CalcOut) (reqs : List (String × JVal)) (deviation : List (String × ℚ)) :
    objGet (success_map dish factors nr reqs deviation) "error" = none := rfl

/-- The used_fallback field of the success map lists the keys of the
final per-run cache. -/
theorem success_map_used_fallback (dish : DishData) (factors : List (String × ℚ))
    (nr : CalcOut) (reqs : List (String × JVal)) (deviation : List (String × ℚ)) :
    objGet (success_map dish factors nr reqs deviation) "used_fallback" =
      some (.arr (nr.fcache.map (fun p => JVal.str p.1))) := rfl

/-- Under the hypotheses of a completed analysis, `runE` succeeds with
the success map. -/
theorem runE_ok_of_pipeline (env : AnalyserEnv)
    (fc0 : List (String × List (String × ℚ))) (data : List (String × JVal))
    (fd : JVal) (dish : DishData) (reqs : List (String × JVal))
    (dev : List (String × ℚ))
    (hfd : objGet data "food_data" = some fd)
    (hdish : get_dish_details env fd = .ok dish)
    (hreq : objGet data "req_data" = some (.obj reqs))
    (hdev : computeDeviation (calculate_total_nutrients env dish.ingredients
      (get_cooking_factor dish.dish_name) fc0).totals reqs = .ok dev) :
    runE env fc0 data = .ok (success_map dish (get_cooking_factor dish.dish_name)
      (calculate_total_nutrients env dish.ingredients
        (get_cooking_factor dish.dish_name) fc0) reqs dev) := by
  unfold runE
  rw [hfd]
  dsimp only
  rw [hdish]
  dsimp only
  rw [hreq]
  dsimp only
  rw [hdev]

/-- C5: if an ingredient reaches tier 3 and the LLM invocation fails, the
resolver returns the all-zeros five-field profile and records the
ingredient in the per-run fallback cache; at the pipeline level such an
ingredient appears in the used_fallback list of the final result and the
analysis completes without an error field. -/
theorem llm_fallback_failure_degrades :
    (∀ (env : AnalyserEnv) (fc : List (String × List (String × ℚ)))
      (i : String) (e : String),
      (∀ r, env.get_nutrient_data i = some r → r.nutrients = []) →
      (∀ r rest, env.search_similar i = r :: rest → r.nutrients = []) →
      fc.find? (fun p => p.1 == i) = none →
      env.clientInvoke (fallback_prompt i) true (.str "") = .error e →
      get_nutrients_with_fallback env fc i =
        ⟨zero_profile, fc ++ [(i, zero_profile)], true, true⟩) ∧
    (∀ (env : AnalyserEnv) (fc0 : List (String × List (String × ℚ)))
      (data : List (String × JVal)) (fd : JVal) (dish : DishData)
      (reqs : List (String × JVal)) (i : String) (q : ℚ),
      objGet data "food_data" = some fd →
      get_dish_details env fd = .ok dish →
      (i, q) ∈ dish.ingredients →
      (∀ r, env.get_nutrient_data i = some r → r.nutrients = []) →
      (∀ r rest, env.search_similar i = r :: rest → r.nutrients = []) →
      objGet data "req_data" = some (.obj reqs) →
      (∀ k, ∃ x, reqValue reqs k = .ok x) →
      objGet (FoodAnalyser.run env fc0 data) "error" = none ∧
      ∃ ufl, objGet (FoodAnalyser.run env fc0 data) "used_fallback" =
        some (.arr ufl) ∧ JVal.str i ∈ ufl) := by
  constructor
  · intro env fc i e h1 h2 h3 h4
    have ht3 : resolve_tier3 env fc i =
        ⟨zero_profile, fc ++ [(i, zero_profile)], true, true⟩ := by
      unfold resolve_tier3
      rw [h3, h4]
    have ht2 : resolve_tier2 env fc i =
        ⟨zero_profile, fc ++ [(i, zero_profile)], true, true⟩ := by
      unfold resolve_tier2
      cases hsim : env.search_similar i with
      | nil => exact ht3
      | cons r2 rest =>
        dsimp only
        rw [h2 r2 rest hsim]
        simpa using ht3
    unfold get_nutrients_with_fallback
    cases hdb : env.get_nutrient_data i with
    | none => exact ht2
    | some r =>
      dsimp only
      rw [h1 r hdb]
      simpa using ht2
  · intro env fc0 data fd dish reqs i q hfd hdish hmem h1 h2 hreq hreqok
    obtain ⟨dev, hdev⟩ := computeDeviation_ok
      (calculate_total_nutrients env dish.ingredients
        (get_cooking_factor dish.dish_name) fc0).totals reqs hreqok
    have hrun : FoodAnalyser.run env fc0 data =
        success_map dish (get_cooking_factor dish.dish_name)
          (calculate_total_nutrients env dish.ingredients
            (get_cooking_factor dish.dish_name) fc0) reqs dev := by
      unfold FoodAnalyser.run
      rw [runE_ok_of_pipeline env fc0 data fd dish reqs dev hfd hdish hreq hdev]
    rw [hrun]
    refine ⟨success_map_error_none _ _ _ _ _, _, success_map_used_fallback _ _ _ _ _, ?_⟩
    have hfind := calcLoop_adds env (get_cooking_factor dish.dish_name)
      dish.ingredients i q h1 h2 initTotals [] fc0 hmem
    have hfind2 : ∃ x, x ∈ (calcLoop env (get_cooking_factor dish.dish_name)
        dish.ingredients initTotals [] fc0).fcache ∧ (x.1 == i) = true := by
      simpa using hfind
    obtain ⟨x, hx, hpx⟩ := hfind2
    have hcalc : (calculate_total_nutrients env dish.ingredients
        (get_cooking_factor dish.dish_name) fc0).fcache =
        (calcLoop env (get_cooking_factor dish.dish_name)
          dish.ingredients initTotals [] fc0).fcache := rfl
    rw [hcalc]
    exact List.mem_map.mpr ⟨x, hx, by rw [eq_of_beq hpx]⟩

/-- C5 witness: concrete oracles where both store tiers miss and the LLM
invocation fails for the single ingredient of the dish. -/
theorem llm_fallback_failure_degrades_witness :
    (wEnvC5.clientInvoke (fallback_prompt "unicorn") true (.str "") = .error "down") ∧
    (get_nutrients_with_fallback wEnvC5 [] "unicorn" =
      ⟨zero_profile, [("unicorn", zero_profile)], true, true⟩) ∧
    (get_dish_details wEnvC5 (.str "img") = .ok ⟨"soup", [("unicorn", 100)], 0⟩) ∧
    (objGet (FoodAnalyser.run wEnvC5 [] wDataC5) "error" = none ∧
     ∃ ufl, objGet (FoodAnalyser.run wEnvC5 [] wDataC5) "used_fallback" =
       some (.arr ufl) ∧ JVal.str "unicorn" ∈ ufl) := by
  refine ⟨?_, ?_, ?_, ?_⟩
  · with_unfolding_all rfl
  · have h := llm_fallback_failure_degrades.1 wEnvC5 [] "unicorn" "down"
      (fun r h => Option.noConfusion h) (fun r rest h => List.noConfusion h) rfl
      (by with_unfolding_all rfl)
    simpa using h
  · with_unfolding_all rfl
  · exact llm_fallback_failure_degrades.2 wEnvC5 [] wDataC5 (.str "img")
      ⟨"soup", [("unicorn", 100)], 0⟩ [] "unicorn" 100 rfl (by with_unfolding_all rfl)
      (by simp) (fun r h => Option.noConfusion h) (fun r rest h => List.noConfusion h)
      rfl (fun k => ⟨0, rfl⟩)

/-! ## C7: zero-ingredient analysis -/

/-- The advice fold leaves its accumulator unchanged when every deviation
is zero. -/
theorem recommendation_foldl_zero (dev : List (String × ℚ)) (h : ∀ p ∈ dev, p.2 = 0) :
    ∀ acc : List String,
      dev.foldl (fun acc p =>
        if 0 < p.2 then acc ++ ["reduce " ++ p.1 ++ " by " ++ fmt1 (qAbs p.2) ++ "g"]
        else if p.2 < 0 then acc ++ ["increase " ++ p.1 ++ " by " ++ fmt1 (qAbs p.2) ++ "g"]
        else acc) acc = acc := by
  induction dev with
  | nil => intro acc; rfl
  | cons hd rest ih =>
    intro acc
    have h0 : hd.2 = 0 := h hd (by simp)
    simp only [List.foldl_cons, h0]
    rw [if_neg (by norm_num), if_neg (by norm_num)]
    exact ih (fun p hp => h p (by simp [hp])) acc

/-- The current_nutrients field of the success map. -/
theorem success_map_current (dish : DishData) (factors : List (String × ℚ))
    (nr : CalcOut) (reqs : List (String × JVal)) (deviation : List (String × ℚ)) :
    objGet (success_map dish factors nr reqs deviation) "current_nutrients" =
      some (profJ nr.totals) := rfl

/-- The recommendation field of the success map. -/
theorem success_map_recommendation (dish : DishData) (factors : List (String × ℚ))
    (nr : CalcOut) (reqs : List (String × JVal)) (deviation : List (String × ℚ)) :
    objGet (success_map dish factors nr reqs deviation) "recommendation" =
      some (.str (generate_recommendation deviation)) := rfl

theorem qSub_zero_zero : qSub 0 0 = (0 : ℚ) := by decide

/-- C7 counterexample: with zero ingredients but a nonzero protein
requirement, the totals are all zero yet the recommendation is an
"increase proteins" advice, not the fixed targets-met message. -/
theorem empty_ingredients_not_targets_met_cex :
    objGet (FoodAnalyser.run wEnvC7 [] wDataC7) "current_nutrients" =
      some (profJ initTotals) ∧
    objGet (FoodAnalyser.run wEnvC7 [] wDataC7) "recommendation" =
      some (.str "Consider to increase proteins by 50.0g") ∧
    objGet (FoodAnalyser.run wEnvC7 [] wDataC7) "recommendation" ≠
      some (.str "Nutrition targets met") := by
  refine ⟨by with_unfolding_all rfl, by with_unfolding_all rfl, ?_⟩
  rw [show objGet (FoodAnalyser.run wEnvC7 [] wDataC7) "recommendation" =
    some (.str "Consider to increase proteins by 50.0g") from by with_unfolding_all rfl]
  intro h
  have h2 := Option.some.inj h
  injection h2 with h3
  exact absurd h3 (by decide)

/-- C7 (amended): for an analysis whose ingredient list has zero items,
every per-nutrient total equals zero; the recommendation text is the
fixed targets-met message exactly when every deviation is zero, in
particular when every requirement value is zero (with nonzero
requirements the deviations are negative and the text asks to increase
those nutrients). -/
theorem empty_ingredients_totals_zero :
    (∀ (env : AnalyserEnv) (factors : List (String × ℚ))
      (fc : List (String × List (String × ℚ))),
      (calculate_total_nutrients env [] factors fc).totals = initTotals) ∧
    (∀ dev : List (String × ℚ), (∀ p ∈ dev, p.2 = 0) →
      generate_recommendation dev = "Nutrition targets met") ∧
    (∀ (env : AnalyserEnv) (fc0 : List (String × List (String × ℚ)))
      (data : List (String × JVal)) (fd : JVal) (dish : DishData)
      (reqs : List (String × JVal)),
      objGet data "food_data" = some fd →
      get_dish_details env fd = .ok dish →
      dish.ingredients = [] →
      objGet data "req_data" = some (.obj reqs) →
      (∀ k, reqValue reqs k = .ok 0) →
      objGet (FoodAnalyser.run env fc0 data) "current_nutrients" =
        some (profJ initTotals) ∧
      objGet (FoodAnalyser.run env fc0 data) "recommendation" =
        some (.str "Nutrition targets met")) := by
  have hcalcEmpty : ∀ (env : AnalyserEnv) (factors : List (String × ℚ))
      (fc : List (String × List (String × ℚ))),
      calculate_total_nutrients env [] factors fc = ⟨initTotals, [], fc⟩ := by
    intro env factors fc
    with_unfolding_all rfl
  have hrec : ∀ dev : List (String × ℚ), (∀ p ∈ dev, p.2 = 0) →
      generate_recommendation dev = "Nutrition targets met" := by
    intro dev h
    unfold generate_recommendation
    rw [recommendation_foldl_zero dev h []]
    rfl
  refine ⟨fun env factors fc => by rw [hcalcEmpty], hrec, ?_⟩
  intro env fc0 data fd dish reqs hfd hdish hempty hreq hzero
  have hdev : computeDeviation (calculate_total_nutrients env dish.ingredients
      (get_cooking_factor dish.dish_name) fc0).totals reqs = .ok initTotals := by
    rw [hempty, hcalcEmpty]
    simp [computeDeviation, initTotals, hzero, qSub_zero_zero]
  have hrun : FoodAnalyser.run env fc0 data =
      success_map dish (get_cooking_factor dish.dish_name)
        (calculate_total_nutrients env dish.ingredients
          (get_cooking_factor dish.dish_name) fc0) reqs initTotals := by
    unfold FoodAnalyser.run
    rw [runE_ok_of_pipeline env fc0 data fd dish reqs initTotals hfd hdish hreq hdev]
  rw [hrun]
  constructor
  · rw [success_map_current]
    rw [hempty, hcalcEmpty]
  · rw [success_map_recommendation]
    rw [hrec initTotals (by intro p hp; fin_cases hp <;> rfl)]

/-- C7 witness: a concrete zero-ingredient dish with an all-default (zero)
requirement map. -/
theorem empty_ingredients_totals_zero_witness :
    ((calculate_total_nutrients wEnvC7 [] COOKING_FACTORS_boiling []).totals = initTotals) ∧
    (generate_recommendation initTotals = "Nutrition targets met") ∧
    (get_dish_details wEnvC7 (.str "img") = .ok ⟨"soup", [], 0⟩) ∧
    (objGet (FoodAnalyser.run wEnvC7 [] wDataC5) "current_nutrients" =
      some (profJ initTotals) ∧
     objGet (FoodAnalyser.run wEnvC7 [] wDataC5) "recommendation" =
      some (.str "Nutrition targets met")) :=
  ⟨empty_ingredients_totals_zero.1 wEnvC7 COOKING_FACTORS_boiling [],
   empty_ingredients_totals_zero.2.1 initTotals (by intro p hp; fin_cases hp <;> rfl),
   by with_unfolding_all rfl,
   empty_ingredients_totals_zero.2.2 wEnvC7 [] wDataC5 (.str "img") ⟨"soup", [], 0⟩ []
     rfl (by with_unfolding_all rfl) rfl rfl (fun k => rfl)⟩

/-! ## C8: pipeline failures become structured results -/

/-- A successful try block yields a map with no error key. -/
theorem runE_ok_error_none (env : AnalyserEnv)
    (fc0 : List (String × List (String × ℚ))) (data : List (String × JVal))
    (r : List (String × JVal)) (h : runE env fc0 data = .ok r) :
    objGet r "error" = none := by
  unfold runE at h
  dsimp only at h
  repeat' split at h
  all_goals first
    | exact Except.noConfusion h
    | (injection h with h; subst h; exact success_map_error_none _ _ _ _ _)

/-- C8 (amended): `run` never raises; every outcome is a structured map.
A FoodAnalyserError failure (e.g. the image analysis failing entirely)
yields an error field plus the stage marker; an unexpected exception
yields an error field without a stage marker; a success carries no error
field. -/
theorem run_structured_outcome (env : AnalyserEnv)
    (fc0 : List (String × List (String × ℚ))) (data : List (String × JVal)) :
    (∃ m, FoodAnalyser.run env fc0 data =
      [("error", .str m), ("stage", .str "food_analysis")]) ∨
    (∃ m, FoodAnalyser.run env fc0 data = [("error", .str ("Unexpected error: " ++ m))]) ∨
    objGet (FoodAnalyser.run env fc0 data) "error" = none := by
  unfold FoodAnalyser.run
  cases hE : runE env fc0 data with
  | error e =>
    cases e with
    | foodAnalyser m => exact Or.inl ⟨m, rfl⟩
    | generic m => exact Or.inr (Or.inl ⟨m, rfl⟩)
  | ok r => exact Or.inr (Or.inr (runE_ok_error_none env fc0 data r hE))

/-- C8 counterexample: an input without the food_data key fails through
the generic exception clause, whose result map has an error field but no
stage marker, contradicting the claim that every failure carries a stage
marker. -/
theorem run_generic_error_no_stage_cex :
    (objGet (FoodAnalyser.run wEnvC7 [] []) "error").isSome = true ∧
    objGet (FoodAnalyser.run wEnvC7 [] []) "stage" = none :=
  ⟨by with_unfolding_all rfl, by with_unfolding_all rfl⟩
